import Mathlib

set_option linter.unusedVariables false
set_option maxRecDepth 8000

/-
Verification of the DeepSeek-OCR-Test backend text-processing layer.

The development shallowly embeds the pure text-processing functions of
src/backend/ocr_service.py and src/backend/qwen_vision_service.py:
the tag scanner (parse_detections), the element classifiers, the field
extractors (dimensions, part numbers, tables, drawing metadata) and the
grounding-JSON element loop.  Python regular expressions are modelled by
a backtracking matcher with Python's preference order (leftmost start,
alternation left first, greedy longest first, lazy shortest first);
each pattern from the source is transcribed into a regex AST.  Machine
floats are modelled by exact rationals; Python str semantics (strip,
split, lower, substring containment) are modelled on lists of
characters.  The matcher carries a depth fuel that is amply large for
every input considered; Python's re module always terminates as well.
-/

namespace DSOCR

/-! ## Python string primitives -/

/-- Python whitespace for the regex class \s and str.strip
    (ASCII whitespace; Unicode-only whitespace is not modelled). -/
def pyWs (c : Char) : Bool :=
  c = ' ' || c = '\t' || c = '\n' || c = '\r' || c = '\x0b' || c = '\x0c'

/-- Python str.strip on a character list: drop leading and trailing whitespace. -/
def pyStrip (l : List Char) : List Char :=
  ((l.dropWhile pyWs).reverse.dropWhile pyWs).reverse

/-- Python str.strip on a String. -/
def pyStripS (s : String) : String := String.mk (pyStrip s.data)

/-- Python str.lower, modelled for ASCII letters plus the diameter sign
    (the only cased non-ASCII character appearing in the vocabularies). -/
def lowerCh (c : Char) : Char := if c = 'Ø' then 'ø' else c.toLower

/-- Python str.lower on a String. -/
def pyLower (s : String) : String := String.mk (s.data.map lowerCh)

/-- needle list is a contiguous leading block of the haystack list. -/
def isPre : List Char → List Char → Bool
  | [], _ => true
  | _ :: _, [] => false
  | a :: as, b :: bs => a = b && isPre as bs

/-- Python substring containment: needle occurs contiguously in haystack. -/
def containsL (needle : List Char) : List Char → Bool
  | [] => needle.isEmpty
  | c :: t => isPre needle (c :: t) || containsL needle t

/-- Python needle in haystack for strings. -/
def pyContains (haystack needle : String) : Bool :=
  containsL needle.data haystack.data

/-- Python int() on a decimal-digit string. -/
def digitsVal (l : List Char) : ℕ :=
  l.foldl (fun a c => a * 10 + (c.toNat - 48)) 0

/-- Python str.split with a one-character separator. -/
def splitCh (sep : Char) : List Char → List (List Char)
  | [] => [[]]
  | c :: t =>
    let r := splitCh sep t
    if c = sep then [] :: r
    else
      match r with
      | [] => [[c]]
      | h :: rt => (c :: h) :: rt

/-- Python str.split on a String with a one-character separator. -/
def pySplitS (s : String) (sep : Char) : List String :=
  (splitCh sep s.data).map String.mk

/-- Python sep.join(parts). -/
def joinWith (sep : String) : List String → String
  | [] => ""
  | [x] => x
  | x :: xs => x ++ sep ++ joinWith sep xs

/-! ## Regex AST and Python-order backtracking matcher -/

/-- Regex abstract syntax for the patterns used by the source.
    cls is a character class, opt and star carry a laziness flag,
    group n records capture group n, eos is the end-of-input anchor. -/
inductive RE where
  | eps : RE
  | eos : RE
  | cls (p : Char → Bool) : RE
  | cat (a b : RE) : RE
  | alt (a b : RE) : RE
  | opt (a : RE) (lzy : Bool) : RE
  | star (a : RE) (lzy : Bool) : RE
  | group (n : Nat) (a : RE) : RE

/-- Capture environment: group index paired with captured characters,
    most recent first (later captures of a group shadow earlier ones,
    as in Python). -/
abbrev Caps := List (Nat × List Char)

/-- Backtracking matcher in continuation-passing style.  Outcomes are
    explored in Python's preference order and the first success wins.
    The fuel bounds the depth of the search; it is chosen large enough
    for the whole input (see fuelFor). -/
def mrunK : Nat → RE → List Char → Caps →
    (List Char → Caps → Option (List Char × Caps)) → Option (List Char × Caps)
  | 0, _, _, _, _ => none
  | f + 1, r, s, k, K =>
    match r with
    | .eps => K s k
    | .eos => if s.isEmpty then K s k else none
    | .cls p =>
      match s with
      | [] => none
      | c :: t => if p c then K t k else none
    | .cat a b => mrunK f a s k (fun s' k' => mrunK f b s' k' K)
    | .alt a b =>
      match mrunK f a s k K with
      | some res => some res
      | none => mrunK f b s k K
    | .opt a lzy =>
      if lzy then
        match K s k with
        | some res => some res
        | none => mrunK f a s k K
      else
        match mrunK f a s k K with
        | some res => some res
        | none => K s k
    | .star a lzy =>
      if lzy then
        match K s k with
        | some res => some res
        | none =>
          mrunK f a s k (fun s' k' =>
            if s'.length < s.length then mrunK f (.star a lzy) s' k' K else K s' k')
      else
        match mrunK f a s k (fun s' k' =>
            if s'.length < s.length then mrunK f (.star a lzy) s' k' K else K s' k') with
        | some res => some res
        | none => K s k
    | .group n a =>
      mrunK f a s k (fun s' k' =>
        K s' ((n, s.take (s.length - s'.length)) :: k'))

/-- Structural size of a regex, used for the fuel bound. -/
def reSize : RE → Nat
  | .eps => 1
  | .eos => 1
  | .cls _ => 1
  | .cat a b => reSize a + reSize b + 1
  | .alt a b => reSize a + reSize b + 1
  | .opt a _ => reSize a + 1
  | .star a _ => reSize a + 1
  | .group _ a => reSize a + 1

/-- Ample search depth for matching r against s. -/
def fuelFor (r : RE) (s : List Char) : Nat := (reSize r + 4) * (s.length + 4)

/-- Attempt a match anchored at the start of s; returns remaining suffix
    and captures of the first (Python-preferred) outcome. -/
def tryAt (r : RE) (s : List Char) : Option (List Char × Caps) :=
  mrunK (fuelFor r s) r s [] (fun s' k => some (s', k))

/-- Python re.search: scan start positions left to right, first position
    with a match wins.  Returns captures and the suffix after the match. -/
def searchGo (r : RE) : List Char → Option (Caps × List Char)
  | [] =>
    match tryAt r [] with
    | some (rest, caps) => some (caps, rest)
    | none => none
  | c :: t =>
    match tryAt r (c :: t) with
    | some (rest, caps) => some (caps, rest)
    | none => searchGo r t

/-- Python re.finditer: successive non-overlapping leftmost matches.
    A zero-width match advances by one character (our patterns never
    match the empty string). -/
def finditGo (r : RE) : Nat → List Char → List Caps
  | 0, _ => []
  | f + 1, s =>
    match searchGo r s with
    | none => []
    | some (caps, rest) =>
      caps :: (if rest.length < s.length then finditGo r f rest
               else finditGo r f (rest.drop 1))

/-- All matches of r in s, in order. -/
def refinditer (r : RE) (s : List Char) : List Caps :=
  finditGo r (s.length + 1) s

/-- match.group(n): contents of capture group n, none if unmatched. -/
def grpOpt (caps : Caps) (n : Nat) : Option (List Char) :=
  (caps.find? (fun p => p.1 = n)).map (fun p => p.2)

/-- Capture group n, defaulting to the empty list (used only for groups
    the pattern always binds). -/
def groupD (caps : Caps) (n : Nat) : List Char := (grpOpt caps n).getD []

/-! ## Regex building blocks -/

/-- The . metacharacter: any character except a newline. -/
def dot : RE := .cls (fun c => c ≠ '\n')

/-- Single literal character. -/
def dch (c : Char) : RE := .cls (fun x => x = c)

/-- Literal string. -/
def rstr (s : String) : RE := s.data.foldr (fun c r => .cat (dch c) r) .eps

/-- Case-insensitive literal character (re.IGNORECASE). -/
def cich (c : Char) : RE := .cls (fun x => lowerCh x = lowerCh c)

/-- Case-insensitive literal string. -/
def cistr (s : String) : RE := s.data.foldr (fun c r => .cat (cich c) r) .eps

/-- The class \d (ASCII digits; Unicode digits are not modelled). -/
def rdigit : RE := .cls Char.isDigit

/-- The class \s. -/
def rws : RE := .cls pyWs

/-- Greedy one-or-more. -/
def rplus (r : RE) : RE := .cat r (.star r false)

/-- Lazy one-or-more. -/
def rplusL (r : RE) : RE := .cat r (.star r true)

/-- Greedy zero-or-one. -/
def ropt (r : RE) : RE := .opt r false

/-- Left-preferring alternation over a list. -/
def alts : List RE → RE
  | [] => .cls (fun _ => false)
  | [r] => r
  | r :: rs => .alt r (alts rs)

/-- The class [\w-] (ASCII word characters; Unicode word characters are
    not modelled). -/
def wordOrDash : RE := .cls (fun c => c.isAlphanum || c = '_' || c = '-')

/-! ## Data model (src/backend/models.py)

Floating-point coordinates are modelled by exact rationals.  Optional
fields never set by the embedded code paths (confidence, metadata,
per-table bbox) are omitted. -/

/-- Bounding box coordinates (models.py BoundingBox). -/
structure BoundingBox where
  x1 : ℚ
  y1 : ℚ
  x2 : ℚ
  y2 : ℚ
deriving DecidableEq, Repr

/-- Detected element with bounding box (models.py DetectedElement). -/
structure DetectedElement where
  label : String
  element_type : String
  bbox : BoundingBox
deriving DecidableEq, Repr

/-- Extracted dimension measurement (models.py Dimension). -/
structure Dimension where
  value : String
  unit : Option String
  tolerance : Option String
  dimension_type : String
  bbox : BoundingBox
deriving DecidableEq, Repr

/-- Extracted part number (models.py PartNumber). -/
structure PartNumber where
  number : String
  bbox : BoundingBox
deriving DecidableEq, Repr

/-- Row in an extracted table (models.py TableRow). -/
structure TableRow where
  cells : List String
  row_number : ℕ
deriving DecidableEq, Repr

/-- Extracted table (models.py ExtractedTable). -/
structure ExtractedTable where
  headers : List String
  rows : List TableRow
  table_type : String
deriving DecidableEq, Repr

/-- Drawing metadata dict returned by extract_drawing_metadata. -/
structure DrawingMetadata where
  title : Option String
  number : Option String
  revision : Option String
  scale : Option String
deriving DecidableEq, Repr

/-! ## Tag scanner and classifiers (src/backend/ocr_service.py) -/

/-- Pattern from parse_detections, ocr_service.py line 129:
    <|ref|>(.*?)<|/ref|><|det|>[[(\d+),\s*(\d+),\s*(\d+),\s*(\d+)]]<|/det|>
    with the pipes and brackets escaped in the source. -/
def detRe : RE :=
  .cat (rstr "<|ref|>") <| .cat (.group 1 (.star dot true)) <|
    .cat (rstr "<|/ref|><|det|>[[") <|
      .cat (.group 2 (rplus rdigit)) <| .cat (dch ',') <| .cat (.star rws false) <|
        .cat (.group 3 (rplus rdigit)) <| .cat (dch ',') <| .cat (.star rws false) <|
          .cat (.group 4 (rplus rdigit)) <| .cat (dch ',') <| .cat (.star rws false) <|
            .cat (.group 5 (rplus rdigit)) (rstr "]]<|/det|>")

/-- Alternation (p/n|part|item|pos|no\.?) from the part-number rule. -/
def partKeyRe : RE :=
  alts [rstr "p/n", rstr "part", rstr "item", rstr "pos",
        .cat (rstr "no") (ropt (dch '.'))]

/-- Pattern from the classifier rule, ocr_service.py line 166:
    (p/n|part|item|pos|no\.?)\s*[:#]?\s*[\w-]+  (searched in the
    lower-cased label). -/
def partRe : RE :=
  .cat (.group 1 partKeyRe)
    (.cat (.star rws false)
      (.cat (ropt (.cls (fun c => c = ':' || c = '#')))
        (.cat (.star rws false) (rplus wordOrDash))))

/-- Unit substrings checked against the raw label (ocr_service.py line 160). -/
def unitStrings : List String :=
  ["mm", "cm", "m", "in", "ft", "\"", String.mk ['\'']]

/-- Symbol substrings checked against the raw label (ocr_service.py line 162). -/
def symStrings : List String := ["Ø", "∅", "R", "±", "°"]

/-- Table-indicator words checked against the lower-cased label. -/
def tableWords : List String := ["item", "qty", "description", "part number"]

/-- Title words checked against the lower-cased label. -/
def titleWords : List String := ["title", "drawing", "sheet", "revision"]

/-- Classifier of the tag-grammar path (ocr_service.py 155-177).
    Ordered rules, first match wins: units, dimension symbols,
    part-number regex, table words, title words, default text. -/
def classify_element (label : String) : String :=
  let label_lower := pyLower label
  if unitStrings.any (fun u => pyContains label u) then "dimension"
  else if symStrings.any (fun u => pyContains label u) then "dimension"
  else if (searchGo partRe label_lower.data).isSome then "part_number"
  else if tableWords.any (fun w => pyContains label_lower w) then "table"
  else if titleWords.any (fun w => pyContains label_lower w) then "title"
  else "text"

/-- Normalised-to-pixel mapping applied to one det tuple
    (ocr_service.py 137-142): each coordinate times the axis extent,
    divided by 1000. -/
def mkBBox (x1 y1 x2 y2 img_width img_height : ℕ) : BoundingBox :=
  { x1 := (x1 : ℚ) * img_width / 1000
    y1 := (y1 : ℚ) * img_height / 1000
    x2 := (x2 : ℚ) * img_width / 1000
    y2 := (y2 : ℚ) * img_height / 1000 }

/-- Element built from one det-tag match (loop body of parse_detections). -/
def mkElem (img_width img_height : ℕ) (caps : Caps) : DetectedElement :=
  let label : String := String.mk (pyStrip (groupD caps 1))
  { label := label
    element_type := classify_element label
    bbox := mkBBox (digitsVal (groupD caps 2)) (digitsVal (groupD caps 3))
      (digitsVal (groupD caps 4)) (digitsVal (groupD caps 5))
      img_width img_height }

/-- Tag scanner (ocr_service.py 124-153): every det-tag occurrence in
    order yields one DetectedElement. -/
def parse_detections (text : String) (img_width img_height : ℕ) :
    List DetectedElement :=
  (refinditer detRe text.data).map (mkElem img_width img_height)

/-! ## Field extractors (src/backend/ocr_service.py) -/

/-- Fraction part (?:\.\d+)? body. -/
def fracRe : RE := .cat (dch '.') (rplus rdigit)

/-- Dimension pattern, ocr_service.py line 184:
    (Ø|∅|R)?(\d+(?:\.\d+)?)\s*(mm|cm|m|in|ft|°|″|′)?(\s*±\s*\d+(?:\.\d+)?)? -/
def dimRe : RE :=
  .cat (ropt (.group 1 (alts [dch 'Ø', dch '∅', dch 'R'])))
    (.cat (.group 2 (.cat (rplus rdigit) (ropt fracRe)))
      (.cat (.star rws false)
        (.cat (ropt (.group 3 (alts [rstr "mm", rstr "cm", rstr "m",
            rstr "in", rstr "ft", rstr "°", rstr "″", rstr "′"])))
          (ropt (.group 4 (.cat (.star rws false)
            (.cat (dch '±') (.cat (.star rws false)
              (.cat (rplus rdigit) (ropt fracRe))))))))))

/-- Dimension extractor (ocr_service.py 179-210).  The text argument is
    carried but, as in the source, unused. -/
def extract_dimensions (text : String) (elements : List DetectedElement) :
    List Dimension :=
  elements.flatMap (fun element =>
    if element.element_type = "dimension" then
      match searchGo dimRe element.label.data with
      | none => []
      | some (caps, _) =>
        let pfx := grpOpt caps 1
        let unit := grpOpt caps 3
        let tolerance := grpOpt caps 4
        let dim_type : String :=
          if pfx = some ('Ø' :: []) || pfx = some ('∅' :: []) then "diameter"
          else if pfx = some ('R' :: []) then "radius"
          else if pyContains element.label "°" then "angular"
          else "linear"
        [{ value := element.label
           unit := unit.map String.mk
           tolerance := tolerance.map (fun t => String.mk (pyStrip t))
           dimension_type := dim_type
           bbox := element.bbox }]
    else [])

/-- Case-insensitive key alternation of the extraction pattern. -/
def partKeyReCI : RE :=
  alts [.cat (cich 'p') (.cat (dch '/') (cich 'n')), cistr "part",
        cistr "item", cistr "pos", .cat (cistr "no") (ropt (dch '.'))]

/-- Part-number extraction pattern, ocr_service.py 219:
    (p/n|part|item|pos|no\.?)\s*[:#]?\s*([\w-]+) with re.IGNORECASE. -/
def pnRe : RE :=
  .cat (.group 1 partKeyReCI)
    (.cat (.star rws false)
      (.cat (ropt (.cls (fun c => c = ':' || c = '#')))
        (.cat (.star rws false) (.group 2 (rplus wordOrDash)))))

/-- Part-number extractor (ocr_service.py 212-231). -/
def extract_part_numbers (text : String) (elements : List DetectedElement) :
    List PartNumber :=
  elements.flatMap (fun element =>
    if element.element_type = "part_number" then
      let number : String :=
        match searchGo pnRe element.label.data with
        | some (caps, _) => String.mk (groupD caps 2)
        | none => element.label
      [{ number := number, bbox := element.bbox }]
    else [])

/-- Character class [-:\s|] of the table separator row. -/
def tsepCls : RE := .cls (fun c => c = '-' || c = ':' || pyWs c || c = '|')

/-- One body line (?:\|.+\|\n?) of the table pattern. -/
def bodyLineRe : RE :=
  .cat (dch '|') (.cat (rplus dot) (.cat (dch '|') (ropt (dch '\n'))))

/-- Table pattern, ocr_service.py line 238:
    \|(.+)\|\n\|[-:\s|]+\|\n((?:\|.+\|\n?)+) -/
def tableRe : RE :=
  .cat (dch '|') (.cat (.group 1 (rplus dot)) (.cat (dch '|')
    (.cat (dch '\n') (.cat (dch '|') (.cat (rplus tsepCls) (.cat (dch '|')
      (.cat (dch '\n') (.group 2 (rplus bodyLineRe)))))))))

/-- Cells of one table line: split on pipes, strip each piece, keep the
    non-empty pieces (ocr_service.py 246 and 251). -/
def tableCells (line : String) : List String :=
  ((pySplitS line '|').map pyStripS).filter (fun c => c ≠ "")

/-- Table extractor (ocr_service.py 233-267). -/
def extract_tables (text : String) : List ExtractedTable :=
  (refinditer tableRe text.data).map (fun caps =>
    let header_line : String := String.mk (groupD caps 1)
    let body_lines : String := String.mk (groupD caps 2)
    let headers := tableCells header_line
    let rows : List TableRow :=
      ((pySplitS (pyStripS body_lines) '\n').enum).filterMap (fun il =>
        let cells := tableCells il.2
        if cells ≠ [] then some { cells := cells, row_number := il.1 } else none)
    let header_text := pyLower (joinWith " " headers)
    let table_type : String :=
      if ["item", "qty", "part", "description"].any
          (fun w => pyContains header_text w) then "bom" else "general"
    { headers := headers, rows := rows, table_type := table_type })

/-- Title pattern (?:title|drawing)[:\s]+(.+?)(?:\n|$), re.IGNORECASE.
    The dollar anchor is modelled by end of input. -/
def titleRe : RE :=
  .cat (alts [cistr "title", cistr "drawing"])
    (.cat (rplus (.cls (fun c => c = ':' || pyWs c)))
      (.cat (.group 1 (rplusL dot)) (.alt (dch '\n') .eos)))

/-- Number pattern (?:drawing|dwg|no\.?)[:\s#]+([\w-]+), re.IGNORECASE. -/
def numberRe : RE :=
  .cat (alts [cistr "drawing", cistr "dwg", .cat (cistr "no") (ropt (dch '.'))])
    (.cat (rplus (.cls (fun c => c = ':' || c = '#' || pyWs c)))
      (.group 1 (rplus wordOrDash)))

/-- Revision pattern (?:rev\.?|revision)[:\s]+([A-Z0-9]+), re.IGNORECASE
    (the flag makes the class match lower-case letters as well). -/
def revisionRe : RE :=
  .cat (alts [.cat (cistr "rev") (ropt (dch '.')), cistr "revision"])
    (.cat (rplus (.cls (fun c => c = ':' || pyWs c)))
      (.group 1 (rplus (.cls (fun c => c.isDigit || c.isAlpha)))))

/-- Scale pattern scale[:\s]+(1:\d+|\d+:\d+), re.IGNORECASE. -/
def scaleRe : RE :=
  .cat (cistr "scale")
    (.cat (rplus (.cls (fun c => c = ':' || pyWs c)))
      (.group 1 (alts [.cat (dch '1') (.cat (dch ':') (rplus rdigit)),
        .cat (rplus rdigit) (.cat (dch ':') (rplus rdigit))])))

/-- Metadata extractor (ocr_service.py 269-300).  The elements argument
    is carried but, as in the source, unused. -/
def extract_drawing_metadata (text : String) (elements : List DetectedElement) :
    DrawingMetadata :=
  let pick (r : RE) : Option String :=
    (searchGo r text.data).map (fun m => String.mk (pyStrip (groupD m.1 1)))
  { title := pick titleRe
    number := pick numberRe
    revision := pick revisionRe
    scale := pick scaleRe }

/-! ## Grounding-JSON variant (src/backend/qwen_vision_service.py)

The string-to-JSON stage (regex extraction of the code block and
json.loads) is library code; the loop over the decoded array
(qwen_vision_service.py 136-159) is embedded over a JSON value AST.
Python dynamic-typing failures inside the loop are modelled by
Except Unit; the single try/except around the whole loop means an
exception returns the elements accumulated so far. -/

/-- JSON values as decoded by json.loads; numbers are modelled by
    exact rationals, objects by association lists with distinct keys. -/
inductive JVal where
  | jnum (q : ℚ) : JVal
  | jstr (s : String) : JVal
  | jbool (b : Bool) : JVal
  | jnull : JVal
  | jarr (xs : List JVal) : JVal
  | jobj (fields : List (String × JVal)) : JVal

/-- dict.get: first binding of the key, if any. -/
def jget? (fields : List (String × JVal)) (k : String) : Option JVal :=
  (fields.find? (fun p => p.1 = k)).map (fun p => p.2)

/-- Python 'bbox_2d' not in item (line 141): key test on a dict,
    membership on a list, substring test on a string; TypeError on
    numbers, booleans and None. -/
def hasBboxKey : JVal → Except Unit Bool
  | .jobj fields => .ok (fields.any (fun p => p.1 = "bbox_2d"))
  | .jarr xs => .ok (xs.any (fun x => match x with
      | .jstr s => s = "bbox_2d"
      | _ => false))
  | .jstr s => .ok (pyContains s "bbox_2d")
  | _ => .error ()

/-- Python item['bbox_2d'] (line 144): subscription with a string key
    succeeds only on a dict; lists and strings raise TypeError. -/
def getBbox : JVal → Except Unit JVal
  | .jobj fields =>
    match jget? fields "bbox_2d" with
    | some v => .ok v
    | none => .error ()
  | _ => .error ()

/-- Python tuple unpacking x1, y1, x2, y2 = v (line 144): a
    four-element list or string or a four-key dict (whose keys are
    iterated) unpacks, everything else raises. -/
def unpack4 : JVal → Except Unit (JVal × JVal × JVal × JVal)
  | .jarr [a, b, c, d] => .ok (a, b, c, d)
  | .jarr _ => .error ()
  | .jstr s =>
    match s.data with
    | [a, b, c, d] =>
      .ok (.jstr (String.mk [a]), .jstr (String.mk [b]),
           .jstr (String.mk [c]), .jstr (String.mk [d]))
    | _ => .error ()
  | .jobj [a, b, c, d] =>
    .ok (.jstr a.1, .jstr b.1, .jstr c.1, .jstr d.1)
  | _ => .error ()

/-- Python float() on a numeric string: optional sign, digits with an
    optional fraction part (exponents and named forms not modelled). -/
def parseFloatQ (l : List Char) : Except Unit ℚ :=
  let t := pyStrip l
  let core : List Char → Except Unit ℚ := fun u =>
    let intPart := u.takeWhile Char.isDigit
    let rest := u.dropWhile Char.isDigit
    match rest with
    | [] => if intPart.isEmpty then .error () else .ok (digitsVal intPart)
    | '.' :: fr =>
      if fr.all Char.isDigit && !(intPart.isEmpty && fr.isEmpty) then
        .ok ((digitsVal intPart : ℚ) +
          (digitsVal fr : ℚ) / ((10 : ℚ) ^ fr.length))
      else .error ()
    | _ => .error ()
  match t with
  | '-' :: u => (core u).map (fun q => -q)
  | '+' :: u => core u
  | u => core u

/-- Python float() (line 154): numbers pass through, booleans become
    0 or 1, numeric strings are parsed, anything else raises. -/
def pyFloat : JVal → Except Unit ℚ
  | .jnum q => .ok q
  | .jbool b => .ok (if b then 1 else 0)
  | .jstr s => parseFloatQ s.data
  | _ => .error ()

/-- Python truthiness of a JSON value (the if sub_label test, line 152). -/
def pyTruthy : JVal → Bool
  | .jnum q => q ≠ 0
  | .jstr s => s ≠ ""
  | .jbool b => b
  | .jnull => false
  | .jarr xs => !xs.isEmpty
  | .jobj fields => !fields.isEmpty

/-- Python str() of a JSON scalar as used by the f-string (line 152);
    rendering of non-string scalars is simplified, the claims only use
    string labels. -/
def pyStrOf : JVal → String
  | .jstr s => s
  | .jnum q => if q.den = 1 then toString q.num else toString q
  | .jbool b => if b then "True" else "False"
  | .jnull => "None"
  | .jarr _ => "[...]"
  | .jobj _ => "..."

/-- Classifier of the grounding-JSON path
    (qwen_vision_service.py 169-193).  Ordered vocabulary rules on the
    lower-cased label, first match wins: view, dimension, part number,
    table, title, default text. -/
def classify_element_type (label : String) : String :=
  let label_lower := pyLower label
  if ["view", "section", "detail", "isometric", "perspective"].any
      (fun v => pyContains label_lower v) then "view"
  else if ["dimension", "measurement", "ø", "diameter", "radius", "r", "±"].any
      (fun v => pyContains label_lower v) then "dimension"
  else if ["part", "item", "pos", "callout"].any
      (fun v => pyContains label_lower v) then "part_number"
  else if ["table", "bom", "bill of material"].any
      (fun v => pyContains label_lower v) then "table"
  else if ["title", "drawing number", "revision"].any
      (fun v => pyContains label_lower v) then "title"
  else "text"

/-- Loop body for one array item (qwen_vision_service.py 140-159):
    none means the item was skipped by the continue, error means an
    exception escaped to the handler. -/
def procItem (item : JVal) : Except Unit (Option DetectedElement) := do
  let has ← hasBboxKey item
  if has = false then
    return none
  else
    let v ← getBbox item
    let (a, b, c, d) ← unpack4 v
    let x1 ← pyFloat a
    let y1 ← pyFloat b
    let x2 ← pyFloat c
    let y2 ← pyFloat d
    let fields := match item with
      | .jobj fs => fs
      | _ => []
    let label := pyStrOf ((jget? fields "label").getD (.jstr "unknown"))
    let subV := (jget? fields "sub_label").getD (.jstr "")
    let element_type := classify_element_type label
    let full_label : String :=
      if pyTruthy subV then pyStripS (label ++ " " ++ pyStrOf subV) else label
    return some { label := full_label
                  element_type := element_type
                  bbox := { x1 := x1, y1 := y1, x2 := x2, y2 := y2 } }

/-- The for-loop with the surrounding try/except: a skipped item keeps
    going, an exception returns the elements accumulated so far. -/
def parse_grounding_items : List JVal → List DetectedElement
  | [] => []
  | item :: rest =>
    match procItem item with
    | .error _ => []
    | .ok none => parse_grounding_items rest
    | .ok (some e) => e :: parse_grounding_items rest

/-- parse_grounding_json from the decoded JSON value onward
    (qwen_vision_service.py 136-159): a non-list value is wrapped in a
    singleton list (line 136-137), then the item loop runs.  The image
    dimensions are accepted and, as in the source, never used: the raw
    JSON coordinates are copied into the bounding box. -/
def parse_grounding_json (data : JVal) (img_width img_height : ℕ) :
    List DetectedElement :=
  match data with
  | .jarr xs => parse_grounding_items xs
  | x => parse_grounding_items [x]

/-! ## Helper lemmas -/

/-- A single character occurring in a list is found by the Python
    substring test. -/
theorem containsL_single_of_mem (c : Char) (l : List Char) (h : c ∈ l) :
    containsL (c :: []) l = true := by
  induction l with
  | nil => cases h
  | cons a t ih =>
    rcases List.mem_cons.mp h with h1 | h2
    · subst h1
      simp [containsL, isPre]
    · simp [containsL, ih h2]

/-- Dropping leading whitespace twice is the same as once. -/
theorem dropWhile_pyWs_idem (l : List Char) :
    (l.dropWhile pyWs).dropWhile pyWs = l.dropWhile pyWs := by
  induction l with
  | nil => rfl
  | cons c t ih =>
    by_cases h : pyWs c
    · simpa [List.dropWhile_cons, h] using ih
    · simp [List.dropWhile_cons, h]

/-- The head surviving dropWhile fails the predicate. -/
theorem head_dropWhile_false (p : Char → Bool) (l : List Char) (c : Char)
    (h : (l.dropWhile p).head? = some c) : p c = false := by
  induction l with
  | nil => simp at h
  | cons a t ih =>
    by_cases hp : p a
    · rw [List.dropWhile_cons, if_pos hp] at h
      exact ih h
    · rw [List.dropWhile_cons, if_neg hp] at h
      simp at h
      subst h
      simpa using hp

/-- A list whose head fails the predicate is unchanged by dropWhile. -/
theorem dropWhile_of_head_false (p : Char → Bool) (l : List Char)
    (h : ∀ c, l.head? = some c → p c = false) : l.dropWhile p = l := by
  cases l with
  | nil => rfl
  | cons a t => simp [List.dropWhile_cons, h a rfl]

/-- Python str.strip is idempotent. -/
theorem pyStrip_idem (l : List Char) : pyStrip (pyStrip l) = pyStrip l := by
  have hA : ∀ c, (pyStrip l).head? = some c → pyWs c = false := by
    intro c hc
    unfold pyStrip at hc
    rw [List.head?_reverse] at hc
    have hxne : (l.dropWhile pyWs).reverse.dropWhile pyWs ≠ [] := by
      intro hnil
      rw [hnil] at hc
      simp at hc
    obtain ⟨u, hu⟩ : (l.dropWhile pyWs).reverse.dropWhile pyWs <:+
        (l.dropWhile pyWs).reverse := List.dropWhile_suffix pyWs
    have h1 := List.getLast?_append_of_ne_nil u hxne
    rw [hu, List.getLast?_reverse] at h1
    exact head_dropWhile_false pyWs l c (by rw [h1]; exact hc)
  show (((pyStrip l).dropWhile pyWs).reverse.dropWhile pyWs).reverse = pyStrip l
  rw [dropWhile_of_head_false pyWs (pyStrip l) hA]
  show ((((l.dropWhile pyWs).reverse.dropWhile pyWs).reverse.reverse).dropWhile
    pyWs).reverse = pyStrip l
  rw [List.reverse_reverse, dropWhile_pyWs_idem]
  rfl

/-! ## Claims -/

/-- C4: the tag-grammar element classifier is total over arbitrary label
    strings with results drawn from the closed set of five types
    (dimension, part number, table, title, text); the ordered rules are
    applied first match wins, so the label Ø25mm item, which also
    satisfies the later table rule (its lower-cased form contains the
    table word item), classifies as dimension by the first rule; being
    a pure function it is deterministic. -/
theorem C4_classifier_total_ordered :
    (∀ label : String,
      classify_element label = "dimension" ∨
      classify_element label = "part_number" ∨
      classify_element label = "table" ∨
      classify_element label = "title" ∨
      classify_element label = "text") ∧
    classify_element "Ø25mm item" = "dimension" ∧
    tableWords.any (fun w => pyContains (pyLower "Ø25mm item") w) = true := by
  refine ⟨fun label => ?_, by decide, by decide⟩
  unfold classify_element
  cases h1 : unitStrings.any (fun u => pyContains label u) <;>
    cases h2 : symStrings.any (fun u => pyContains label u) <;>
      cases h3 : (searchGo partRe (pyLower label).data).isSome <;>
        cases h4 : tableWords.any (fun w => pyContains (pyLower label) w) <;>
          cases h5 : titleWords.any (fun w => pyContains (pyLower label) w) <;>
            simp only [h1, h2, h3, h4, h5] <;> simp

/-- C7: the tag scanner, the table parser and the field extractors are
    total functions of their string inputs: for every text, image size
    and element list each of them returns a well-typed (possibly empty)
    result. -/
theorem C7_extractors_total :
    ∀ (text : String) (img_width img_height : ℕ)
      (elements : List DetectedElement),
      ∃ (es : List DetectedElement) (ts : List ExtractedTable)
        (ds : List Dimension) (ps : List PartNumber) (md : DrawingMetadata),
        parse_detections text img_width img_height = es ∧
        extract_tables text = ts ∧
        extract_dimensions text elements = ds ∧
        extract_part_numbers text elements = ps ∧
        extract_drawing_metadata text elements = md :=
  fun _ _ _ _ => ⟨_, _, _, _, _, rfl, rfl, rfl, rfl, rfl⟩

/-- C9 (amended): the grounding-path classifier is an independent
    ordered vocabulary classifier over six types whose first-priority
    rule maps view, section or detail vocabulary to the type view, a
    type the tag-grammar classifier never returns; outside that rule it
    does not in general agree with the tag-grammar classifier. -/
theorem C9_classifier_refinement :
    (∀ label : String,
      classify_element_type label = "view" ∨
      classify_element_type label = "dimension" ∨
      classify_element_type label = "part_number" ∨
      classify_element_type label = "table" ∨
      classify_element_type label = "title" ∨
      classify_element_type label = "text") ∧
    (∀ label : String, classify_element label ≠ "view") ∧
    (∀ label : String,
      (["view", "section", "detail", "isometric", "perspective"].any
        (fun v => pyContains (pyLower label) v)) = true →
      classify_element_type label = "view") := by
  refine ⟨fun label => ?_, fun label => ?_, fun label h => ?_⟩
  · unfold classify_element_type
    cases h1 : ["view", "section", "detail", "isometric", "perspective"].any
        (fun v => pyContains (pyLower label) v) <;>
      cases h2 : ["dimension", "measurement", "ø", "diameter", "radius", "r",
          "±"].any (fun v => pyContains (pyLower label) v) <;>
        cases h3 : ["part", "item", "pos", "callout"].any
            (fun v => pyContains (pyLower label) v) <;>
          cases h4 : ["table", "bom", "bill of material"].any
              (fun v => pyContains (pyLower label) v) <;>
            cases h5 : ["title", "drawing number", "revision"].any
                (fun v => pyContains (pyLower label) v) <;>
              simp only [h1, h2, h3, h4, h5] <;> simp
  · unfold classify_element
    cases h1 : unitStrings.any (fun u => pyContains label u) <;>
      cases h2 : symStrings.any (fun u => pyContains label u) <;>
        cases h3 : (searchGo partRe (pyLower label).data).isSome <;>
          cases h4 : tableWords.any (fun w => pyContains (pyLower label) w) <;>
            cases h5 : titleWords.any (fun w => pyContains (pyLower label) w) <;>
              simp only [h1, h2, h3, h4, h5] <;> simp
  · simp [classify_element_type, h]

/-- C9 witness: a label carrying view vocabulary is mapped to view by
    the grounding-path classifier. -/
theorem C9_classifier_refinement_witness :
    classify_element_type "Section A-A" = "view" :=
  C9_classifier_refinement.2.2 "Section A-A" (by decide)

/-- C9 counterexample: on the label mm the two classifiers disagree and
    the disagreement is not explained by the view rule, so the
    grounding classifier is not the §4.3 classifier with an expanded
    first rule. -/
theorem C9_counterexample :
    classify_element "mm" = "dimension" ∧
    classify_element_type "mm" = "text" ∧
    classify_element_type "mm" ≠ classify_element "mm" ∧
    classify_element_type "mm" ≠ "view" := by decide

/-- C10: any label containing the character m anywhere is classified as
    dimension by the tag-grammar classifier, because the case-sensitive
    unit substring test includes the single-letter unit m which matches
    inside ordinary words, pre-empting all later rules. -/
theorem C10_m_substring_dimension :
    ∀ label : String, 'm' ∈ label.data →
      classify_element label = "dimension" := by
  intro label hm
  have h1 : containsL ('m' :: []) label.data = true :=
    containsL_single_of_mem 'm' label.data hm
  have h2 : unitStrings.any (fun u => pyContains label u) = true := by
    apply List.any_eq_true.mpr
    refine ⟨"m", by decide, ?_⟩
    exact h1
  simp [classify_element, h2]

/-- C10 witness: the ordinary label item 4 contains the character m and
    is classified as dimension. -/
theorem C10_m_substring_dimension_witness :
    'm' ∈ ("item 4" : String).data ∧
      classify_element "item 4" = "dimension" :=
  ⟨by decide, C10_m_substring_dimension "item 4" (by decide)⟩

/-- OCR output carrying the full-extent normalized det tuple. -/
def fullTagText : String := "<|ref|>x<|/ref|><|det|>[[0,0,999,999]]<|/det|>"

/-- C1 counterexample: for width and height 1000 the full-extent tuple
    (0,0,999,999) is mapped to the pixel bbox (0,0,999,999), not to
    (0,0,W,H) = (0,0,1000,1000) as the divide-by-999 contract predicts. -/
theorem C1_counterexample :
    (parse_detections fullTagText 1000 1000).map (fun e => e.bbox) =
      [⟨0, 0, 999, 999⟩] ∧ ¬ ((999 : ℚ) = 1000) := by
  constructor
  · have h : (parse_detections fullTagText 1000 1000).map (fun e => e.bbox) =
        [mkBBox 0 0 999 999 1000 1000] := rfl
    rw [h]
    norm_num [mkBBox]
  · norm_num

/-- C1 (amended): the tag scanner maps each coordinate as
    normalized times extent divided by 1000 (not 999); hence the tuple
    (0,0,999,999) maps to (0, 0, 999W/1000, 999H/1000), which for every
    positive width falls strictly short of the image extent. -/
theorem C1_pixel_mapping :
    ∀ img_width img_height : ℕ,
      (parse_detections fullTagText img_width img_height).map (fun e => e.bbox) =
        [mkBBox 0 0 999 999 img_width img_height] ∧
      (∀ a b c d w h : ℕ, mkBBox a b c d w h =
        ⟨(a : ℚ) * w / 1000, (b : ℚ) * h / 1000,
         (c : ℚ) * w / 1000, (d : ℚ) * h / 1000⟩) ∧
      (0 < img_width →
        (mkBBox 0 0 999 999 img_width img_height).x2 < img_width) := by
  intro w h
  refine ⟨rfl, fun _ _ _ _ _ _ => rfl, fun hw => ?_⟩
  have hw0 : (0 : ℚ) < w := by exact_mod_cast hw
  show ((999 : ℕ) : ℚ) * w / 1000 < w
  rw [div_lt_iff₀ (by norm_num : (0 : ℚ) < 1000)]
  push_cast
  nlinarith

/-- C1 witness: at width 1000 and height 500 the mapped right edge of
    the full-extent tuple lies strictly inside the image. -/
theorem C1_pixel_mapping_witness :
    (mkBBox 0 0 999 999 1000 500).x2 < 1000 :=
  (C1_pixel_mapping 1000 500).2.2 (by norm_num)

/-- OCR output whose det tuple has reversed x coordinates. -/
def revTagText : String := "<|ref|>x<|/ref|><|det|>[[900,5,100,7]]<|/det|>"

/-- C6 counterexample: the tag scanner emits a bounding box with
    x1 = 900 greater than x2 = 100 when the model output carries the
    reversed tuple, so the ordering invariant does not hold for all
    input texts. -/
theorem C6_counterexample :
    (parse_detections revTagText 1000 1000).map (fun e => e.bbox) =
      [⟨900, 5, 100, 7⟩] ∧ ¬ ((900 : ℚ) ≤ 100) := by
  constructor
  · have h : (parse_detections revTagText 1000 1000).map (fun e => e.bbox) =
        [mkBBox 900 5 100 7 1000 1000] := rfl
    rw [h]
    norm_num [mkBBox]
  · norm_num

/-- C6 (amended): every bounding box of the tag-scanner path is the
    divide-by-1000 scaling of the four naturals of its det tuple, and
    this scaling preserves coordinate order: whenever the normalized
    tuple satisfies x1 less-or-equal x2 and y1 less-or-equal y2, so
    does the pixel box.  Neither path itself enforces the ordering. -/
theorem C6_bbox_scaling_monotone :
    ∀ (text : String) (img_width img_height : ℕ) (e : DetectedElement),
      e ∈ parse_detections text img_width img_height →
      ∃ a b c d : ℕ, e.bbox = mkBBox a b c d img_width img_height ∧
        (a ≤ c → e.bbox.x1 ≤ e.bbox.x2) ∧
        (b ≤ d → e.bbox.y1 ≤ e.bbox.y2) := by
  intro text w h e he
  rw [parse_detections, List.mem_map] at he
  obtain ⟨m, hm, rfl⟩ := he
  refine ⟨digitsVal (groupD m 2), digitsVal (groupD m 3),
    digitsVal (groupD m 4), digitsVal (groupD m 5), rfl, fun hac => ?_,
    fun hbd => ?_⟩
  · show (digitsVal (groupD m 2) : ℚ) * w / 1000 ≤
      (digitsVal (groupD m 4) : ℚ) * w / 1000
    have hq : (digitsVal (groupD m 2) : ℚ) ≤ (digitsVal (groupD m 4) : ℚ) := by
      exact_mod_cast hac
    have hw : (0 : ℚ) ≤ (w : ℚ) := by positivity
    exact (div_le_div_iff_of_pos_right (by norm_num)).mpr (mul_le_mul_of_nonneg_right hq hw)
  · show (digitsVal (groupD m 3) : ℚ) * h / 1000 ≤
      (digitsVal (groupD m 5) : ℚ) * h / 1000
    have hq : (digitsVal (groupD m 3) : ℚ) ≤ (digitsVal (groupD m 5) : ℚ) := by
      exact_mod_cast hbd
    have hh : (0 : ℚ) ≤ (h : ℚ) := by positivity
    exact (div_le_div_iff_of_pos_right (by norm_num)).mpr (mul_le_mul_of_nonneg_right hq hh)

/-- C6 witness: the element scanned from the reversed tuple is the
    scaling of four naturals, instantiating the amended statement. -/
theorem C6_bbox_scaling_monotone_witness :
    ∃ a b c d : ℕ,
      (DetectedElement.mk "x" "text" (mkBBox 900 5 100 7 1000 1000)).bbox =
        mkBBox a b c d 1000 1000 ∧
      (a ≤ c → (DetectedElement.mk "x" "text"
        (mkBBox 900 5 100 7 1000 1000)).bbox.x1 ≤
        (DetectedElement.mk "x" "text" (mkBBox 900 5 100 7 1000 1000)).bbox.x2) ∧
      (b ≤ d → (DetectedElement.mk "x" "text"
        (mkBBox 900 5 100 7 1000 1000)).bbox.y1 ≤
        (DetectedElement.mk "x" "text" (mkBBox 900 5 100 7 1000 1000)).bbox.y2) :=
  C6_bbox_scaling_monotone revTagText 1000 1000 _ (by
    have h : parse_detections revTagText 1000 1000 =
        [DetectedElement.mk "x" "text" (mkBBox 900 5 100 7 1000 1000)] := rfl
    rw [h]
    exact List.mem_singleton.mpr rfl)

/-- Detected element whose label carries a diameter with tolerance. -/
def dimLabelEl : DetectedElement :=
  { label := "Ø25 ±0.1mm"
    element_type := classify_element "Ø25 ±0.1mm"
    bbox := ⟨0, 0, 0, 0⟩ }

/-- C2 counterexample: for the label Ø25 ±0.1mm the extracted Dimension
    has unit None, not mm: in the dimension pattern the optional unit
    group precedes the tolerance group, so with the tolerance directly
    after the number the trailing mm is left outside the match. -/
theorem C2_counterexample :
    (extract_dimensions "" [dimLabelEl]).map (fun d => d.unit) = [none] ∧
    (none : Option String) ≠ some "mm" := by decide

/-- C2 (amended): the label Ø25 ±0.1mm classifies as dimension and
    yields dimension type diameter, tolerance ±0.1, unit None, and the
    original label verbatim as value (never reconstructed from parts). -/
theorem C2_dimension_extraction :
    dimLabelEl.element_type = "dimension" ∧
    extract_dimensions "" [dimLabelEl] =
      [{ value := "Ø25 ±0.1mm", unit := none, tolerance := some "±0.1",
         dimension_type := "diameter", bbox := ⟨0, 0, 0, 0⟩ }] := by decide

/-- Well-formed grounding item labelled b with box (1,2,3,4). -/
def goodItem1 : JVal :=
  .jobj [("bbox_2d", .jarr [.jnum 1, .jnum 2, .jnum 3, .jnum 4]),
         ("label", .jstr "b")]

/-- Well-formed grounding item labelled c with box (5,6,7,8). -/
def goodItem2 : JVal :=
  .jobj [("bbox_2d", .jarr [.jnum 5, .jnum 6, .jnum 7, .jnum 8]),
         ("label", .jstr "c")]

/-- Grounding item whose bbox_2d has only two entries. -/
def wrongArityItem : JVal :=
  .jobj [("bbox_2d", .jarr [.jnum 1, .jnum 2]), ("label", .jstr "a")]

/-- Grounding item with no bbox_2d key at all. -/
def noBboxItem : JVal := .jobj [("label", .jstr "note")]

/-- C3 counterexample: an array whose first object has a wrong-arity
    bbox_2d followed by two well-formed objects yields zero elements,
    not two: the unpacking exception escapes to the single handler
    around the whole loop and the valid siblings are discarded. -/
theorem C3_counterexample :
    parse_grounding_json (.jarr [wrongArityItem, goodItem1, goodItem2])
      640 480 = [] ∧
    ([] : List DetectedElement).length ≠ 2 := ⟨rfl, by decide⟩

/-- C3 (amended): only an object missing the bbox_2d key is skipped
    without harming its siblings: with one such object and two
    well-formed objects, two elements are returned regardless of the
    position of the malformed object.  Malformations that raise (wrong
    bbox_2d arity, non-subscriptable items) abort the loop instead,
    keeping only the elements accumulated before them. -/
theorem C3_skip_missing_bbox :
    ∀ (m g1 g2 : JVal) (e1 e2 : DetectedElement) (w h : ℕ),
      procItem m = Except.ok none →
      procItem g1 = Except.ok (some e1) →
      procItem g2 = Except.ok (some e2) →
      parse_grounding_json (.jarr [m, g1, g2]) w h = [e1, e2] ∧
      parse_grounding_json (.jarr [g1, m, g2]) w h = [e1, e2] ∧
      parse_grounding_json (.jarr [g1, g2, m]) w h = [e1, e2] := by
  intro m g1 g2 e1 e2 w h hm h1 h2
  refine ⟨?_, ?_, ?_⟩ <;>
    simp [parse_grounding_json, parse_grounding_items, hm, h1, h2]

/-- C3 witness: a concrete no-bbox object among two well-formed objects
    leaves exactly the two well-formed elements. -/
theorem C3_skip_missing_bbox_witness :
    parse_grounding_json (.jarr [noBboxItem, goodItem1, goodItem2]) 640 480 =
      [⟨"b", "text", ⟨1, 2, 3, 4⟩⟩, ⟨"c", "text", ⟨5, 6, 7, 8⟩⟩] :=
  (C3_skip_missing_bbox noBboxItem goodItem1 goodItem2
    ⟨"b", "text", ⟨1, 2, 3, 4⟩⟩ ⟨"c", "text", ⟨5, 6, 7, 8⟩⟩ 640 480
    rfl rfl rfl).1

/-- Markdown table with an interior whitespace-only body cell. -/
def interiorCellText : String :=
  "| A | B | C |\n| --- | --- | --- |\n| 1 |   | Bracket |"

/-- C5 counterexample: a body row with an interior whitespace-only cell
    loses that cell entirely, yielding the two-cell row (1, Bracket)
    instead of the position-preserving three-cell row (1, empty,
    Bracket). -/
theorem C5_counterexample :
    extract_tables interiorCellText =
      [{ headers := ["A", "B", "C"],
         rows := [{ cells := ["1", "Bracket"], row_number := 0 }],
         table_type := "general" }] ∧
    (["1", "Bracket"] : List String) ≠ ["1", "", "Bracket"] := by decide

/-- Cells produced by tableCells are stripped and non-empty. -/
theorem mem_tableCells_stripped (s c : String) (h : c ∈ tableCells s) :
    c ≠ "" ∧ pyStripS c = c := by
  unfold tableCells at h
  rw [List.mem_filter] at h
  obtain ⟨hmem, hne⟩ := h
  rw [List.mem_map] at hmem
  obtain ⟨orig, _, rfl⟩ := hmem
  refine ⟨by simpa using hne, ?_⟩
  show String.mk (pyStrip (pyStrip orig.data)) = pyStripS orig
  rw [pyStrip_idem]
  rfl

/-- C5 (amended): header and body cells are the source cells trimmed of
    surrounding whitespace, but every cell that is empty after trimming
    is discarded, the interior whitespace-only cells of a body row
    included: every retained cell is non-empty and strip-invariant. -/
theorem C5_cells_trimmed_all_empties_discarded :
    ∀ (text : String) (tbl : ExtractedTable) (row : TableRow) (c : String),
      tbl ∈ extract_tables text →
      (c ∈ tbl.headers ∨ (row ∈ tbl.rows ∧ c ∈ row.cells)) →
      c ≠ "" ∧ pyStripS c = c := by
  intro text tbl row c htbl hc
  rw [extract_tables, List.mem_map] at htbl
  obtain ⟨caps, hcaps, rfl⟩ := htbl
  rcases hc with hhead | ⟨hrow, hcell⟩
  · exact mem_tableCells_stripped _ c hhead
  · dsimp only at hrow
    rw [List.mem_filterMap] at hrow
    obtain ⟨il, hil, hg⟩ := hrow
    by_cases hne : tableCells il.2 ≠ []
    · rw [if_pos hne] at hg
      obtain rfl := Option.some.inj hg
      exact mem_tableCells_stripped _ c hcell
    · rw [if_neg hne] at hg
      cases hg

/-- C5 witness: the header cell A of the concrete interior-cell table
    is non-empty and strip-invariant. -/
theorem C5_cells_trimmed_witness :
    ("A" : String) ≠ "" ∧ pyStripS "A" = "A" :=
  C5_cells_trimmed_all_empties_discarded interiorCellText
    { headers := ["A", "B", "C"],
      rows := [{ cells := ["1", "Bracket"], row_number := 0 }],
      table_type := "general" }
    { cells := [], row_number := 0 } "A" (by decide) (Or.inl (by decide))

/-- The BOM table text of the concrete example. -/
def bomTableText : String :=
  "| Item | Qty | Description |\n| --- | --- | --- |\n| 1 | 2 | Bracket |\n| 2 | 1 | Bolt |"

/-- C8: the four-line markdown table parses to one table with headers
    Item, Qty, Description, two rows numbered 0 and 1 with the stated
    cells, and table type bom because the joined lower-cased header
    text contains the BOM word item. -/
theorem C8_bom_table :
    extract_tables bomTableText =
      [{ headers := ["Item", "Qty", "Description"],
         rows := [{ cells := ["1", "2", "Bracket"], row_number := 0 },
                  { cells := ["2", "1", "Bolt"], row_number := 1 }],
         table_type := "bom" }] ∧
    pyContains (pyLower (joinWith " " ["Item", "Qty", "Description"]))
      "item" = true := by decide

end DSOCR
